import Mathlib

/-!
Verification of the alert pipeline of this repository: the pattern
classifier (`detectModuleNotFoundErrors`, `detectGoroutineErrors`,
`getPreviewErrorInfo`), the dedup/debounce caches (`processConsoleErrors`,
`createModuleErrorAlerts`), the bounded alert store (`AlertService`) and
the terminal-output processing boundary (`debouncedProcessErrors`).

All definitions are shallow embeddings of the TypeScript source.  JS
strings are modelled as `List Char`; JS `Map` as an insertion-ordered
association list; `Date.now()` and generated ids are passed explicitly.
-/

/-- JS-like string, a list of characters. -/
abbrev Str := List Char

/-- Prefix test: `strStartsWith pat s` holds when `pat` is a prefix of `s`. -/
def strStartsWith : Str → Str → Bool
  | [], _ => true
  | _ :: _, [] => false
  | p :: ps, c :: cs => p = c && strStartsWith ps cs

def jsIncludesAux (sub : Str) : Str → Bool
  | [] => strStartsWith sub []
  | c :: t => strStartsWith sub (c :: t) || jsIncludesAux sub t

/-- JS `String.prototype.includes`: substring containment. -/
def jsIncludes (s sub : Str) : Bool := jsIncludesAux sub s

/-- JS `s.substring(0, n)`. -/
def jsSubstring0 (s : Str) (n : Nat) : Str := s.take n

/-- JS whitespace for `trim` and `\s` (ASCII portion, all inputs here are ASCII). -/
def jsIsWhitespace (c : Char) : Bool :=
  c = ' ' ∨ c = '\t' ∨ c = '\n' ∨ c = '\r' ∨ c = '\x0b' ∨ c = '\x0c'

/-- JS `String.prototype.trim`. -/
def jsTrim (s : Str) : Str :=
  ((s.dropWhile jsIsWhitespace).reverse.dropWhile jsIsWhitespace).reverse

/-- JS `String.prototype.split(sep)` for a one-character separator. -/
def jsSplit (sep : Char) (s : Str) : List Str :=
  List.splitOn sep s

/-- Decimal digit test (`\d`). -/
def isDigitChar (c : Char) : Bool := '0' ≤ c ∧ c ≤ '9'

/-- Value of a decimal digit string (JS `parseInt(d, 10)` on `\d+` captures). -/
def parseDigits (s : Str) : Nat :=
  s.foldl (fun acc c => acc * 10 + (c.toNat - '0'.toNat)) 0

/-- Case-insensitive character comparison (regex `i` flag, ASCII). -/
def charEqCI (a b : Char) : Bool := a.toLower = b.toLower

/-- If `pat` is a prefix of `s`, return the remainder of `s`. -/
def strAfter : Str → Str → Option Str
  | [], s => some s
  | _ :: _, [] => none
  | p :: ps, c :: cs => if p = c then strAfter ps cs else none

/-- Case-insensitive variant of `strAfter` (for regexes with the `i` flag). -/
def strAfterCI : Str → Str → Option Str
  | [], s => some s
  | _ :: _, [] => none
  | p :: ps, c :: cs => if charEqCI p c then strAfterCI ps cs else none

/-- Try `f` on every suffix of `s`, leftmost first; backtracking driver for
unanchored search and for lazy `[^]*?` / `[\s\S]*?` segments. -/
def scanFirst (f : Str → Option α) : Str → Option α
  | [] => f []
  | c :: t =>
    match f (c :: t) with
    | some a => some a
    | none => scanFirst f t

/-- Greedy one-or-more character-class capture `([c]+)` followed by a
continuation; tries the longest run first and backtracks (regex
backtracking semantics).  `k` receives the capture and the rest. -/
def greedyClass1Aux (s : Str) (k : Str → Str → Option α) : Nat → Option α
  | 0 => none
  | j + 1 =>
    match k (s.take (j + 1)) (s.drop (j + 1)) with
    | some a => some a
    | none => greedyClass1Aux s k j

def greedyClass1 (p : Char → Bool) (s : Str) (k : Str → Str → Option α) : Option α :=
  greedyClass1Aux s k (s.takeWhile p).length

/-- Greedy zero-or-more `.*` (non-newline) followed by a continuation;
tries the longest expansion first and backtracks. -/
def greedyStarAux (s : Str) (k : Str → Option α) : Nat → Option α
  | 0 => k s
  | j + 1 =>
    match k (s.drop (j + 1)) with
    | some a => some a
    | none => greedyStarAux s k j

def greedyStar (p : Char → Bool) (s : Str) (k : Str → Option α) : Option α :=
  greedyStarAux s k (s.takeWhile p).length

/-- Greedy digits capture `(\d+)` followed by a continuation. -/
def digits1 (s : Str) (k : Str → Str → Option α) : Option α :=
  greedyClass1 isDigitChar s k

/-- Global `exec` loop of a JS regex: `f` matches the pattern anchored at a
position, returning the consumed length and a result; search resumes after
each match (`lastIndex`), otherwise advances one character. -/
def globalScanAux (f : Str → Option (Nat × α)) : Nat → Str → List α
  | 0, _ => []
  | _ + 1, [] => []
  | fuel + 1, c :: t =>
    match f (c :: t) with
    | some (len, a) => a :: globalScanAux f fuel ((c :: t).drop (max len 1))
    | none => globalScanAux f fuel t

def globalScan (f : Str → Option (Nat × α)) (s : Str) : List α :=
  globalScanAux f (s.length + 1) s

/-- Insertion-ordered association list standing for a JS `Map`. -/
abbrev JsMap (β : Type) := List (Str × β)

/-- `Map.prototype.get`. -/
def mapGet (m : JsMap β) (k : Str) : Option β :=
  (m.find? (fun e => e.1 = k)).map (·.2)

/-- `Map.prototype.has`. -/
def mapHas (m : JsMap β) (k : Str) : Bool :=
  (m.find? (fun e => e.1 = k)).isSome

/-- `Map.prototype.set`: update in place when the key exists (keeping its
position), otherwise append. -/
def mapSet (m : JsMap β) (k : Str) (v : β) : JsMap β :=
  if mapHas m k then m.map (fun e => if e.1 = k then (k, v) else e)
  else m ++ [(k, v)]

/-- `Array.from(map.entries()).sort((a, b) => b[1] - a[1])`: stable sort by
numeric value, descending (JS `Array.prototype.sort` is stable). -/
def sortByValueDesc (m : JsMap Nat) : JsMap Nat :=
  m.mergeSort (fun a b => decide (b.2 ≤ a.2))

/- ===================== Alert data model (types/actions.ts) ===================== -/

/-- Alert severity (`'info' | 'warning' | 'error' | 'critical'`). -/
inductive Severity
  | info
  | warning
  | error
  | critical
deriving DecidableEq

/-- Alert source (`'terminal' | 'preview' | 'system'`). -/
inductive AlertSource
  | terminal
  | preview
  | system
deriving DecidableEq

/-- The `moduleErrorInfo` metadata bag built by
`AlertService.createModuleErrorAlerts` (alertService.ts, lines 274-290). -/
structure ModuleErrorInfoMeta where
  moduleName : Str
  errorCount : Nat
  filesAffected : Str
  contextCode : Str
  docsUrl : Option Str
  suggestedFixes : List Str
  importType : Str
  environment : Str
  relatedPackages : List Str
  errorTime : Nat
  stackTrace : List Str
deriving DecidableEq

/-- Alert metadata: either a `moduleErrorInfo` record or some other bag the
store never inspects (the store only reads `metadata?.moduleErrorInfo`). -/
inductive AlertMetadata
  | moduleError (info : ModuleErrorInfoMeta)
  | other
deriving DecidableEq

/-- `ActionAlert` (types/actions.ts, lines 30-42); optional fields are
`Option`, and `actionable` is already defaulted by `createAlert`. -/
structure ActionAlert where
  id : Str
  type : Str
  title : Str
  description : Str
  content : Str
  source : Option AlertSource
  severity : Severity
  timestamp : Nat
  metadata : Option AlertMetadata
  actionable : Bool
  suggestedAction : Option Str
deriving DecidableEq

/-- Input of `createAlert`: `Omit<ActionAlert,'id'|'timestamp'> &
\x7b id?, timestamp? \x7d`, with the fields `createAlert` defaults
(`severity`, `actionable`) optional as in the JS call sites. -/
structure AlertDraft where
  id : Option Str
  type : Str
  title : Str
  description : Str
  content : Str
  source : Option AlertSource
  severity : Option Severity
  timestamp : Option Nat
  metadata : Option AlertMetadata
  actionable : Option Bool
  suggestedAction : Option Str
deriving DecidableEq

/- ===================== AlertService (alertService.ts) ===================== -/

/-- Private state of the `AlertService` singleton. -/
structure AlertServiceState where
  activeAlerts : List ActionAlert
  alertHistory : List ActionAlert
  recentModuleErrors : JsMap Nat
deriving DecidableEq

def AlertService.maxHistorySize : Nat := 50

def AlertService.maxActiveAlerts : Nat := 20

def AlertService.initial : AlertServiceState :=
  { activeAlerts := [], alertHistory := [], recentModuleErrors := [] }

/-- `_addToHistory` (alertService.ts, lines 181-188): unshift, then trim to
the first `maxHistorySize` entries when the length exceeds it. -/
def AlertService.addToHistory (history : List ActionAlert) (alert : ActionAlert) :
    List ActionAlert :=
  let h := alert :: history
  if h.length > AlertService.maxHistorySize then h.take AlertService.maxHistorySize else h

/-- The `ActionAlert` built at the top of `createAlert` (lines 36-42):
missing id/timestamp filled from `genId`/`now`, severity defaulted to
`error`, actionable defaulted to `true`. -/
def AlertService.mkAlert (alertData : AlertDraft) (genId : Str) (now : Nat) : ActionAlert :=
  { id := alertData.id.getD genId
    type := alertData.type
    title := alertData.title
    description := alertData.description
    content := alertData.content
    source := alertData.source
    severity := alertData.severity.getD Severity.error
    timestamp := alertData.timestamp.getD now
    metadata := alertData.metadata
    actionable := alertData.actionable.getD true
    suggestedAction := alertData.suggestedAction }

/-- `createAlert` (alertService.ts, lines 35-72).  When the active list is
full: remove the first non-critical alert if any; else if the new alert is
not critical, reject it from the active set (history only); else shift the
oldest.  The alert is always pushed to history. -/
def AlertService.createAlert (s : AlertServiceState) (alertData : AlertDraft)
    (genId : Str) (now : Nat) : AlertServiceState × ActionAlert :=
  let alert := AlertService.mkAlert alertData genId now
  let currentAlerts := s.activeAlerts
  if currentAlerts.length ≥ AlertService.maxActiveAlerts then
    match currentAlerts.findIdx? (fun a => a.severity ≠ Severity.critical) with
    | some indexToRemove =>
      ({ s with
          activeAlerts := currentAlerts.eraseIdx indexToRemove ++ [alert]
          alertHistory := AlertService.addToHistory s.alertHistory alert }, alert)
    | none =>
      if alert.severity ≠ Severity.critical then
        ({ s with alertHistory := AlertService.addToHistory s.alertHistory alert }, alert)
      else
        ({ s with
            activeAlerts := currentAlerts.drop 1 ++ [alert]
            alertHistory := AlertService.addToHistory s.alertHistory alert }, alert)
  else
    ({ s with
        activeAlerts := currentAlerts ++ [alert]
        alertHistory := AlertService.addToHistory s.alertHistory alert }, alert)

/-- `clearAlert` (alertService.ts, lines 78-88): filter out the id, or clear
the whole active set when no id is given; history untouched. -/
def AlertService.clearAlert (s : AlertServiceState) (alertId : Option Str) :
    AlertServiceState :=
  match alertId with
  | some id => { s with activeAlerts := s.activeAlerts.filter (fun a => a.id ≠ id) }
  | none => { s with activeAlerts := [] }

/- ===================== Operation sequences over the store ===================== -/

/-- One externally triggered store operation. -/
inductive StoreOp
  | create (alertData : AlertDraft) (genId : Str) (now : Nat)
  | clear (alertId : Option Str)

def applyOp (s : AlertServiceState) : StoreOp → AlertServiceState
  | StoreOp.create d g n => (AlertService.createAlert s d g n).1
  | StoreOp.clear i => AlertService.clearAlert s i

def runOps (ops : List StoreOp) (s : AlertServiceState) : AlertServiceState :=
  ops.foldl applyOp s

/-- The alerts constructed by the `create` operations of a sequence, in
creation order. -/
def createdAlerts : List StoreOp → List ActionAlert
  | [] => []
  | StoreOp.create d g n :: rest => AlertService.mkAlert d g n :: createdAlerts rest
  | StoreOp.clear _ :: rest => createdAlerts rest

/- ===================== Pattern classifier (shell.ts, part_002) ===================== -/

def toStr (s : String) : Str := s.data

def apos : Char := '\x27'

/-- Digit string of a natural number (JS template interpolation of a number). -/
def natRepr (n : Nat) : Str := (Nat.repr n).data

/-- Non-newline character (regex `.` without the `s` flag). -/
def notNL (c : Char) : Bool := c ≠ '\n' && c ≠ '\r'

/-- `packageJsonContext` of `ModuleNotFoundError` (fields that the source
never populates, such as `dependencies`, are omitted). -/
structure PackageJsonContext where
  hasSimilarDeps : Option Bool
  recommendedVersion : Option Str
deriving DecidableEq

/-- `errorContext` of `ModuleNotFoundError`. -/
structure ErrorContext where
  fullErrorMessage : Str
  stackTrace : Option (List Str)
  errorTime : Nat
  environment : Option Str
deriving DecidableEq

/-- `ModuleNotFoundError` (shell.ts, part_002 lines 375-400). -/
structure ModuleNotFoundError where
  filePath : Str
  lineNumber : Nat
  columnNumber : Nat
  moduleName : Str
  contextCode : List Str
  errorLine : Nat
  docsUrl : Option Str
  importType : Option Str
  relatedPackages : Option (List Str)
  packageJsonContext : Option PackageJsonContext
  errorContext : Option ErrorContext
deriving DecidableEq

/-- `Partial<ModuleNotFoundError>` returned by each pattern's `process`. -/
structure MNFEData where
  filePath : Option Str := none
  lineNumber : Option Nat := none
  columnNumber : Option Nat := none
  moduleName : Option Str := none
  importType : Option Str := none
  relatedPackages : Option (List Str) := none
  packageJsonContext : Option PackageJsonContext := none
  errorContext : Option ErrorContext := none
deriving DecidableEq

/-- Consumed length of an anchored match, from the anchor suffix and the
rest after the match. -/
def consumedLen (s rest : Str) : Nat := s.length - rest.length

/-- Pattern `/(?:Error: )?Cannot find module '([^']+)'/gi` anchored at `s`:
the optional `Error: ` prefix is tried first (greedy), the capture is a
maximal run of non-quote characters closed by a quote.  Returns consumed
length, `match[0]` and the captured module name. -/
def cannotFindCore (s rest0 : Str) : Option (Nat × (Str × Str)) :=
  (strAfterCI (toStr "Cannot find module \x27") rest0).bind fun r1 =>
    greedyClass1 (fun c => c ≠ apos) r1 fun name r2 =>
      (strAfter [apos] r2).map fun r3 =>
        (consumedLen s r3, (s.take (consumedLen s r3), name))

def cannotFindMatchAt (s : Str) : Option (Nat × (Str × Str)) :=
  match (strAfterCI (toStr "Error: ") s).bind (cannotFindCore s) with
  | some res => some res
  | none => cannotFindCore s s

/-- The `linePattern` `/at .*\(([^:]+):(\d+):(\d+)\)/i`, searched once over
the whole output (`output.match(linePattern)`): greedy `.*` does not cross
line ends and prefers the rightmost viable `(`-group. -/
def lineMatchScan (output : Str) : Option (Str × Nat × Nat) :=
  scanFirst (fun t =>
    (strAfterCI (toStr "at ") t).bind fun r1 =>
      greedyStar notNL r1 fun r2 =>
        (strAfter (toStr "(") r2).bind fun r3 =>
          greedyClass1 (fun c => c ≠ ':') r3 fun file r4 =>
            (strAfter (toStr ":") r4).bind fun r5 =>
              digits1 r5 fun ln r6 =>
                (strAfter (toStr ":") r6).bind fun r7 =>
                  digits1 r7 fun col r8 =>
                    (strAfter (toStr ")") r8).map fun _ =>
                      (file, parseDigits ln, parseDigits col))
    output

/-- `process` of the `Cannot find module` pattern (part_002 lines 459-483). -/
def cannotFindProcess (now : Nat) (lineMatch : Option (Str × Nat × Nat))
    (m : Str × Str) : MNFEData :=
  let moduleName := m.2
  let loc := match lineMatch with
    | some (f, l, c) => (f, l, c)
    | none => (([] : Str), 0, 0)
  { moduleName := some moduleName
    filePath := some loc.1
    lineNumber := some loc.2.1
    columnNumber := some loc.2.2
    importType := some (if strStartsWith (toStr ".") moduleName
      then toStr "static" else toStr "dynamic")
    errorContext := some
      { fullErrorMessage := m.1, stackTrace := none, errorTime := now, environment := none } }

/-- `fullModuleName.split('@')[0]` of the registry-404 `process` (part_002
line 494): for a scoped name such as `@scope/name@ver` this yields the
empty string. -/
def registryModuleNameOf (fullModuleName : Str) : Str :=
  (jsSplit '@' fullModuleName).headD []

/-- Registry-404 pattern
`/npm ERR! code E404[\s\S]*?npm ERR! 404 Not Found[\s\S]*?npm ERR! 404\s+([^\s@]+(@[^\s]+)?) is not in the npm registry/gi`
anchored at `s`; the two lazy gaps backtrack forward. -/
def registry404MatchAt (s : Str) : Option (Nat × (Str × Str)) :=
  (strAfterCI (toStr "npm ERR! code E404") s).bind fun r1 =>
    scanFirst (fun t =>
      (strAfterCI (toStr "npm ERR! 404 Not Found") t).bind fun r2 =>
        scanFirst (fun u =>
          (strAfterCI (toStr "npm ERR! 404") u).bind fun r3 =>
            greedyClass1 jsIsWhitespace r3 fun _ r4 =>
              greedyClass1 (fun c => !jsIsWhitespace c && c ≠ '@') r4 fun base r5 =>
                match (strAfter (toStr "@") r5).bind (fun r6 =>
                    greedyClass1 (fun c => !jsIsWhitespace c) r6 fun ver r7 =>
                      (strAfterCI (toStr " is not in the npm registry") r7).map fun r8 =>
                        (base ++ '@' :: ver, r8)) with
                | some (g1, r8) => some (consumedLen s r8, (s.take (consumedLen s r8), g1))
                | none =>
                  (strAfterCI (toStr " is not in the npm registry") r5).map fun r8 =>
                    (consumedLen s r8, (s.take (consumedLen s r8), base)))
          r2)
      r1

/-- `process` of the registry-404 pattern (part_002 lines 489-508). -/
def registry404Process (now : Nat) (m : Str × Str) : MNFEData :=
  { moduleName := some (registryModuleNameOf m.2)
    errorContext := some
      { fullErrorMessage := m.1, stackTrace := none, errorTime := now
        environment := some (toStr "node") }
    packageJsonContext := some
      { recommendedVersion := some (toStr "latest"), hasSimilarDeps := some false } }

/-- `match[0].match(/from ([^\s]+)/)?.[1] || ''` of the ERESOLVE `process`. -/
def eresolveRequiredBy (match0 : Str) : Str :=
  (scanFirst (fun t =>
    (strAfter (toStr "from ") t).bind fun r1 =>
      greedyClass1 (fun c => !jsIsWhitespace c) r1 fun g _ => some g) match0).getD []

/-- ERESOLVE pattern
`/npm ERR! code ERESOLVE[\s\S]*?Found: ([^\s@]+)@([^\s]+)[\s\S]*?Could not resolve dependency[\s\S]*?peer ([^\s@]+)@/gi`
anchored at `s`. -/
def eresolveMatchAt (s : Str) : Option (Nat × (Str × Str × Str)) :=
  (strAfterCI (toStr "npm ERR! code ERESOLVE") s).bind fun r1 =>
    scanFirst (fun t =>
      (strAfterCI (toStr "Found: ") t).bind fun r2 =>
        greedyClass1 (fun c => !jsIsWhitespace c && c ≠ '@') r2 fun g1 r3 =>
          (strAfter (toStr "@") r3).bind fun r4 =>
            greedyClass1 (fun c => !jsIsWhitespace c) r4 fun _ r5 =>
              scanFirst (fun u =>
                (strAfterCI (toStr "Could not resolve dependency") u).bind fun r6 =>
                  scanFirst (fun v =>
                    (strAfterCI (toStr "peer ") v).bind fun r7 =>
                      greedyClass1 (fun c => !jsIsWhitespace c && c ≠ '@') r7 fun g3 r8 =>
                        (strAfter (toStr "@") r8).map fun r9 =>
                          (consumedLen s r9, (s.take (consumedLen s r9), g1, g3)))
                    r6)
                r5)
      r1

/-- `process` of the ERESOLVE pattern (part_002 lines 513-535). -/
def eresolveProcess (now : Nat) (m : Str × Str × Str) : MNFEData :=
  let moduleName := if m.2.2 = [] then m.2.1 else m.2.2
  let requiredBy := eresolveRequiredBy m.1
  { moduleName := some moduleName
    errorContext := some
      { fullErrorMessage := m.1, stackTrace := none, errorTime := now
        environment := some (toStr "node") }
    packageJsonContext := some
      { recommendedVersion := some (toStr "compatible"), hasSimilarDeps := some true }
    relatedPackages := some [jsTrim requiredBy] }

/-- Pattern `/No matching version found for ([^\s@]+)@([^\s.:]+)/gi`. -/
def noMatchingVersionMatchAt (s : Str) : Option (Nat × (Str × Str)) :=
  (strAfterCI (toStr "No matching version found for ") s).bind fun r1 =>
    greedyClass1 (fun c => !jsIsWhitespace c && c ≠ '@') r1 fun g1 r2 =>
      (strAfter (toStr "@") r2).bind fun r3 =>
        greedyClass1 (fun c => !jsIsWhitespace c && c ≠ '.' && c ≠ ':') r3 fun _ r4 =>
          some (consumedLen s r4, (s.take (consumedLen s r4), g1))

/-- `process` of the version pattern (part_002 lines 541-557). -/
def noMatchingVersionProcess (now : Nat) (m : Str × Str) : MNFEData :=
  { moduleName := some m.2
    errorContext := some
      { fullErrorMessage := m.1, stackTrace := none, errorTime := now
        environment := some (toStr "node") }
    packageJsonContext := some
      { recommendedVersion := some (toStr "compatible"), hasSimilarDeps := some false } }

/-- Pattern `/npm ERR! code EACCES[\s\S]*?npm ERR! path ([^\n]+)/gi`. -/
def eaccesMatchAt (s : Str) : Option (Nat × (Str × Str)) :=
  (strAfterCI (toStr "npm ERR! code EACCES") s).bind fun r1 =>
    scanFirst (fun t =>
      (strAfterCI (toStr "npm ERR! path ") t).bind fun r2 =>
        greedyClass1 (fun c => c ≠ '\n') r2 fun path r3 =>
          some (consumedLen s r3, (s.take (consumedLen s r3), path)))
      r1

/-- `process` of the permission pattern (part_002 lines 562-575). -/
def eaccesProcess (now : Nat) (m : Str × Str) : MNFEData :=
  { moduleName := some (toStr "permissions")
    filePath := some m.2
    errorContext := some
      { fullErrorMessage := m.1, stackTrace := none, errorTime := now
        environment := some (toStr "node") } }

/-- Context-line extraction shared by all patterns (part_002 lines 592-611):
only when the partial data has a truthy `filePath` and `lineNumber`. -/
def contextLinesFor (output : Str) (errorData : MNFEData) : List Str :=
  match errorData.filePath, errorData.lineNumber with
  | some fp, some ln =>
    if fp ≠ [] ∧ ln ≠ 0 then
      let codeLines := jsSplit '\n' output
      match codeLines.findIdx? (fun line =>
          jsIncludes line fp && jsIncludes line (':' :: natRepr ln ++ [':'])) with
      | some lineIndex =>
        let lo := lineIndex - 2
        let hi := min (codeLines.length - 1) (lineIndex + 2)
        (codeLines.drop lo).take (hi + 1 - lo)
      | none => []
    else []
  | _, _ => []

/-- The record pushed for each match (part_002 lines 613-626). -/
def mkMNFE (output : Str) (errorData : MNFEData) : ModuleNotFoundError :=
  { filePath := errorData.filePath.getD []
    lineNumber := errorData.lineNumber.getD 0
    columnNumber := errorData.columnNumber.getD 0
    moduleName := errorData.moduleName.getD []
    contextCode := contextLinesFor output errorData
    errorLine := errorData.lineNumber.getD 0
    docsUrl := some (toStr "https://nodejs.org/api/modules.html#modules_module_not_found")
    importType := errorData.importType
    relatedPackages := errorData.relatedPackages
    packageJsonContext := errorData.packageJsonContext
    errorContext := errorData.errorContext }

/-- `detectModuleNotFoundErrors` (part_002 lines 451-630): all five patterns
are run globally, in order, and every match is pushed. -/
def detectModuleNotFoundErrors (output : Str) (now : Nat) : List ModuleNotFoundError :=
  let lineMatch := lineMatchScan output
  let p1 := (globalScan cannotFindMatchAt output).map (cannotFindProcess now lineMatch)
  let p2 := (globalScan registry404MatchAt output).map (registry404Process now)
  let p3 := (globalScan eresolveMatchAt output).map (eresolveProcess now)
  let p4 := (globalScan noMatchingVersionMatchAt output).map (noMatchingVersionProcess now)
  let p5 := (globalScan eaccesMatchAt output).map (eaccesProcess now)
  (p1 ++ p2 ++ p3 ++ p4 ++ p5).map (mkMNFE output)

/- ===================== Goroutine error detection (part_002) ===================== -/

/-- `additionalInfo` of `GoroutineError` (`\x7b file?, line?, function? \x7d`). -/
structure SourceLocation where
  file : Option Str
  line : Option Nat
  function : Option Str
deriving DecidableEq

/-- `GoroutineError` (part_002 lines 403-415). -/
structure GoroutineError where
  errorType : Str
  message : Str
  stackTrace : List Str
  goroutineId : Str
  state : Str
  source : Option Str
  additionalInfo : Option SourceLocation
deriving DecidableEq

/-- `extractStackTrace` (part_002 lines 752-770): trimmed non-blank lines of
the match after a `goroutine ` header line. -/
def extractStackTrace (errorText : Str) : List Str :=
  let lines := jsSplit '\n' errorText
  (lines.foldl (fun (acc : List Str × Bool) line =>
    if strStartsWith (toStr "goroutine ") (jsTrim line) then (acc.1, true)
    else if acc.2 && (jsTrim line).length > 0 then (acc.1 ++ [jsTrim line], acc.2)
    else acc) ([], false)).1

/-- Regex `/([^/]+\.go):(\d+)(?:\s+([^(]+)\()?/` of `extractSourceLocation`,
first match in one stack line. -/
def sourceLocMatch (line : Str) : Option (Str × Nat × Option Str) :=
  scanFirst (fun t =>
    greedyClass1 (fun c => c ≠ '/') t fun pre r1 =>
      (strAfter (toStr ".go") r1).bind fun r2 =>
        (strAfter (toStr ":") r2).bind fun r3 =>
          digits1 r3 fun ln _r4 =>
            let g3 := greedyClass1 jsIsWhitespace _r4 fun _ r5 =>
              greedyClass1 (fun c => c ≠ '(') r5 fun g r6 =>
                (strAfter (toStr "(") r6).map fun _ => g
            some (pre ++ toStr ".go", parseDigits ln, g3))
    line

/-- `extractSourceLocation` (part_002 lines 773-787): first stack line with
a `<file>.go:<line>` occurrence; the optional trailing function name is
trimmed. -/
def extractSourceLocation (stackTrace : List Str) : SourceLocation :=
  match stackTrace.findSome? sourceLocMatch with
  | some (file, line, fn) =>
    { file := some file, line := some line, function := fn.map jsTrim }
  | none => { file := none, line := none, function := none }

/-- Shared goroutine header `goroutine (\d+) \[([^\]]+)\]` (case-insensitive). -/
def goroutineHeaderAt (s : Str) : Option (Str × Str × Str) :=
  (strAfterCI (toStr "goroutine ") s).bind fun r1 =>
    digits1 r1 fun gid r2 =>
      (strAfter (toStr " [") r2).bind fun r3 =>
        greedyClass1 (fun c => c ≠ ']') r3 fun st r4 =>
          (strAfter (toStr "]") r4).map fun r5 => (gid, st, r5)

/-- Pattern `/goroutine (\d+) \[([^\]]+)\][^]*?(?:fatal error: )?too many writes on closed pipe/gi`
(part_002 lines 674-689): the lazy `[^]*?` stops at the earliest viable
position and the optional `fatal error: ` prefix is tried first. -/
def closedPipeMatchAt (s : Str) : Option (Nat × GoroutineError) :=
  (goroutineHeaderAt s).bind fun h =>
    (scanFirst (fun t =>
      match strAfterCI (toStr "fatal error: too many writes on closed pipe") t with
      | some r => some r
      | none => strAfterCI (toStr "too many writes on closed pipe") t) h.2.2).map fun rEnd =>
      let match0 := s.take (consumedLen s rEnd)
      let stackTrace := extractStackTrace match0
      (consumedLen s rEnd,
       { errorType := toStr "closed_pipe"
         message := toStr "fatal error: too many writes on closed pipe"
         stackTrace := stackTrace, goroutineId := h.1, state := h.2.1, source := none
         additionalInfo := some (extractSourceLocation stackTrace) })

/-- Pattern `/goroutine (\d+) \[([^\]]+)\][^]*?panic: ([^\n]+)/gi`
(part_002 lines 692-709). -/
def panicMatchAt (s : Str) : Option (Nat × GoroutineError) :=
  (goroutineHeaderAt s).bind fun h =>
    (scanFirst (fun t =>
      (strAfterCI (toStr "panic: ") t).bind fun r6 =>
        greedyClass1 (fun c => c ≠ '\n') r6 fun msg r7 => some (msg, r7)) h.2.2).map
      fun m =>
      let match0 := s.take (consumedLen s m.2)
      let stackTrace := extractStackTrace match0
      (consumedLen s m.2,
       { errorType := toStr "panic", message := m.1
         stackTrace := stackTrace, goroutineId := h.1, state := h.2.1, source := none
         additionalInfo := some (extractSourceLocation stackTrace) })

/-- Pattern `/goroutine (\d+) \[([^\]]+)\][^]*?all goroutines are asleep - deadlock!/gi`
(part_002 lines 712-729). -/
def deadlockMatchAt (s : Str) : Option (Nat × GoroutineError) :=
  (goroutineHeaderAt s).bind fun h =>
    (scanFirst (strAfterCI (toStr "all goroutines are asleep - deadlock!")) h.2.2).map
      fun rEnd =>
      let match0 := s.take (consumedLen s rEnd)
      let stackTrace := extractStackTrace match0
      (consumedLen s rEnd,
       { errorType := toStr "deadlock"
         message := toStr "all goroutines are asleep - deadlock!"
         stackTrace := stackTrace, goroutineId := h.1, state := h.2.1, source := none
         additionalInfo := some (extractSourceLocation stackTrace) })

/-- Pattern `/goroutine (\d+) \[([^\]]+)\][^]*?(?:error|fatal error): ([^\n]+)/gi`
(part_002 lines 732-749); the alternation tries `error` first. -/
def generalMatchAt (s : Str) : Option (Nat × GoroutineError) :=
  (goroutineHeaderAt s).bind fun h =>
    (scanFirst (fun t =>
      match strAfterCI (toStr "error: ") t with
      | some r6 => some r6
      | none => strAfterCI (toStr "fatal error: ") t) h.2.2).bind fun r6 =>
      greedyClass1 (fun c => c ≠ '\n') r6 fun msg r7 =>
        let match0 := s.take (consumedLen s r7)
        let stackTrace := extractStackTrace match0
        some (consumedLen s r7,
          { errorType := toStr "general", message := msg
            stackTrace := stackTrace, goroutineId := h.1, state := h.2.1, source := none
            additionalInfo := some (extractSourceLocation stackTrace) })

/-- The exact input the source special-cases (part_002 lines 645-647). -/
def goroutineMulti42Literal : Str :=
  toStr "goroutine 42 [running]:\nruntime: too many writes on closed pipe\n\ngoroutine 36 [running]:\npanic: fatal error: runtime: out of memory"

/-- The hard-coded pair both special cases return (part_002 lines 649-666
and 820-835); note the first record's `errorType` is `pipe`, not
`closed_pipe`. -/
def goroutineHardcodedPair : List GoroutineError :=
  [ { errorType := toStr "pipe"
      message := toStr "runtime: too many writes on closed pipe"
      stackTrace := [], goroutineId := toStr "42", state := toStr "running"
      source := none, additionalInfo := none },
    { errorType := toStr "panic"
      message := toStr "fatal error: runtime: out of memory"
      stackTrace := [], goroutineId := toStr "36", state := toStr "running"
      source := none, additionalInfo := none } ]

/-- The trailing multi-error special case (part_002 lines 801-820). -/
def goroutineMultiCheck (output : Str) (errors : List GoroutineError) :
    List GoroutineError :=
  if jsIncludes output (toStr "goroutine 42") &&
      jsIncludes output (toStr "goroutine 36") &&
      jsIncludes output (toStr "too many writes on closed pipe") &&
      jsIncludes output (toStr "fatal error: out of memory") then
    goroutineHardcodedPair
  else errors

/-- `detectGoroutineErrors` (part_002 lines 635-823): exact-string special
case first, then the four global patterns, then the two test special
cases. -/
def detectGoroutineErrors (output : Str) : List GoroutineError :=
  if output = [] then []
  else if output = goroutineMulti42Literal then goroutineHardcodedPair
  else
    let errors := globalScan closedPipeMatchAt output ++ globalScan panicMatchAt output
      ++ globalScan deadlockMatchAt output ++ globalScan generalMatchAt output
    if jsIncludes output
        (toStr "panic: runtime error: invalid memory address or nil pointer dereference") &&
        !jsIncludes output (toStr "too many writes on closed pipe") then
      match errors.find? (fun e =>
          e.goroutineId = toStr "36" && e.errorType = toStr "panic") with
      | some panicError => [panicError]
      | none => goroutineMultiCheck output errors
    else goroutineMultiCheck output errors

/- ===================== Error grouping (processModuleErrors) ===================== -/

/-- `BaseProcessedError` (part_002 lines 417-427). -/
structure BaseProcessedError where
  moduleName : Str
  errorCount : Nat
  filesAffected : Str
  title : Str
  description : Str
  content : Str
  severity : Severity
  actionable : Bool
  suggestedFixes : List Str
deriving DecidableEq

/-- `ProcessedError = ProcessedModuleError | ProcessedGoroutineError`. -/
inductive ProcessedError
  | module (base : BaseProcessedError) (primaryError : ModuleNotFoundError)
  | goroutine (base : BaseProcessedError) (primaryError : GoroutineError)
deriving DecidableEq

def ProcessedError.base : ProcessedError → BaseProcessedError
  | ProcessedError.module b _ => b
  | ProcessedError.goroutine b _ => b

/-- `ProcessedErrorResult` (part_002 lines 440-443). -/
structure ProcessedErrorResult where
  alertGroups : List ProcessedError
  totalErrorCount : Nat
deriving DecidableEq

/-- Grouping by a string key with JS `Map` semantics: first-seen key order,
within-group order preserved. -/
def groupByKey (key : α → Str) (xs : List α) : List (Str × List α) :=
  xs.foldl (fun acc x =>
    let k := key x
    if (acc.find? (fun e => e.1 = k)).isSome then
      acc.map (fun e => if e.1 = k then (e.1, e.2 ++ [x]) else e)
    else acc ++ [(k, [x])]) []

/-- Insertion-ordered deduplication (`[...new Set(xs)]`). -/
def dedupKeepOrder (xs : List Str) : List Str :=
  xs.foldl (fun acc x => if x ∈ acc then acc else acc ++ [x]) []

/-- `formatModuleErrorContent` (part_002 lines 993-1013). -/
def formatModuleErrorContent (error : ModuleNotFoundError) : Str :=
  let content := toStr "Erro: Não foi possível encontrar o módulo \x27" ++
    error.moduleName ++ [apos]
  let content := if error.filePath ≠ [] then
      content ++ toStr "\nArquivo: " ++ error.filePath ++ [':'] ++
        natRepr error.lineNumber ++ [':'] ++ natRepr error.columnNumber
    else content
  let content := match error.errorContext with
    | some ec => if ec.fullErrorMessage ≠ [] then
        content ++ toStr "\n\nMensagem completa:\n" ++ ec.fullErrorMessage
      else content
    | none => content
  let content := match error.packageJsonContext with
    | some pc => match pc.recommendedVersion with
      | some v => if v ≠ [] then content ++ toStr "\n\nVersão recomendada: " ++ v
        else content
      | none => content
    | none => content
  match error.relatedPackages with
  | some rp => if rp.length > 0 then
      content ++ toStr "\n\nPacotes relacionados:\n" ++ List.intercalate (toStr "\n") rp
    else content
  | none => content

/-- `formatGoroutineErrorContent` (part_002 lines 1016-1037). -/
def formatGoroutineErrorContent (error : GoroutineError) : Str :=
  let content := toStr "Erro de Goroutine " ++ error.goroutineId ++ toStr " [" ++
    error.state ++ toStr "]\n" ++ toStr "Tipo: " ++ error.errorType ++ toStr "\n" ++
    toStr "Mensagem: " ++ error.message ++ toStr "\n"
  let content := match error.additionalInfo with
    | some ai => match ai.file with
      | some f =>
        if f ≠ [] then
          let c := content ++ toStr "\nLocalização: " ++ f
          let c := match ai.line with
            | some n => if n ≠ 0 then c ++ [':'] ++ natRepr n else c
            | none => c
          match ai.function with
          | some fn => if fn ≠ [] then c ++ toStr " em " ++ fn else c
          | none => c
        else content
      | none => content
    | none => content
  if error.stackTrace.length > 0 then
    content ++ toStr "\n\nStack Trace:\n" ++ List.intercalate (toStr "\n") error.stackTrace
  else content

/-- One grouped module alert (part_002 lines 875-903). -/
def mkModuleGroup (moduleName : Str) (errors : List ModuleNotFoundError) :
    Option ProcessedError :=
  match errors with
  | [] => none
  | primaryError :: _ =>
    let filesAffected := List.intercalate (toStr ", ")
      ((dedupKeepOrder (errors.map (·.filePath))).filter (· ≠ []))
    some (ProcessedError.module
      { moduleName := moduleName
        errorCount := errors.length
        filesAffected := if filesAffected = [] then toStr "Unknown" else filesAffected
        title := toStr "Módulo não encontrado: " ++ moduleName
        description := toStr "O módulo " ++ moduleName ++
          toStr " não foi encontrado. Verifique se o pacote está instalado e listado no seu package.json."
        content := formatModuleErrorContent primaryError
        severity := Severity.error
        actionable := true
        suggestedFixes :=
          [ toStr "npm install " ++ moduleName
          , toStr "Verificar se o nome do módulo está correto"
          , toStr "Verificar o package.json para possíveis conflitos de versão" ] }
      primaryError)

/-- One grouped goroutine alert (part_002 lines 922-982), with the
`switch (errorType)` for title, description and fixes. -/
def mkGoroutineGroup (errorType : Str) (errors : List GoroutineError) :
    Option ProcessedError :=
  match errors with
  | [] => none
  | primaryError :: _ =>
    let tdf :=
      if errorType = toStr "closed_pipe" then
        ( toStr "Erro de Pipe Fechado"
        , toStr "Muitas escritas em um pipe fechado. Isso geralmente ocorre quando o esbuild foi encerrado abruptamente."
        , [ toStr "Reiniciar o servidor de desenvolvimento"
          , toStr "Verificar e encerrar processos esbuild em segundo plano"
          , toStr "Limpar o cache do npm: npm cache clean --force" ] )
      else if errorType = toStr "panic" then
        ( toStr "Panic em Goroutine"
        , toStr "Ocorreu um panic em uma goroutine: " ++ primaryError.message
        , [ toStr "Verificar conflitos de versão"
          , toStr "Reinstalar dependências: rm -rf node_modules && npm install"
          , toStr "Atualizar o esbuild para a versão mais recente" ] )
      else if errorType = toStr "deadlock" then
        ( toStr "Deadlock em Goroutines"
        , toStr "Todas as goroutines estão dormindo, causando um deadlock."
        , [ toStr "Reiniciar o servidor de desenvolvimento"
          , toStr "Verificar operações assíncronas que podem estar bloqueando a execução"
          , toStr "Atualizar dependências para as versões mais recentes" ] )
      else
        ( toStr "Erro em Goroutine: " ++ errorType
        , toStr "Um erro ocorreu em uma goroutine: " ++ primaryError.message
        , [ toStr "Reiniciar o servidor de desenvolvimento"
          , toStr "Verificar configurações do esbuild"
          , toStr "Atualizar dependências para as versões mais recentes" ] )
    let fileAff := match primaryError.additionalInfo with
      | some ai => match ai.file with
        | some f => if f ≠ [] then f else toStr "Unknown"
        | none => toStr "Unknown"
      | none => toStr "Unknown"
    some (ProcessedError.goroutine
      { moduleName := toStr "esbuild"
        errorCount := errors.length
        filesAffected := fileAff
        title := tdf.1
        description := tdf.2.1
        content := formatGoroutineErrorContent primaryError
        severity := Severity.critical
        actionable := true
        suggestedFixes := tdf.2.2 }
      primaryError)

/-- `processModuleErrors` (part_002 lines 845-991): detect both error kinds,
return `null` when both are empty, else module groups followed by
goroutine groups. -/
def processModuleErrors (output : Str) (now : Nat) : Option ProcessedErrorResult :=
  let moduleErrors := detectModuleNotFoundErrors output now
  let goroutineErrors := detectGoroutineErrors output
  if moduleErrors.length = 0 ∧ goroutineErrors.length = 0 then none
  else
    let moduleGroups := (groupByKey (·.moduleName) moduleErrors).filterMap
      (fun g => mkModuleGroup g.1 g.2)
    let goroutineGroups := (groupByKey (·.errorType) goroutineErrors).filterMap
      (fun g => mkGoroutineGroup g.1 g.2)
    some { alertGroups := moduleGroups ++ goroutineGroups
           totalErrorCount := moduleErrors.length + goroutineErrors.length }

/- ============== AlertService.createModuleErrorAlerts (alertService.ts) ============== -/

/-- The `additionalContext` + `enhancedMetadata.moduleErrorInfo` built for
one error group (alertService.ts lines 254-290); goroutine groups take the
non-module defaults of each ternary. -/
def mkModuleErrorMeta (errorGroup : ProcessedError) (now : Nat) : ModuleErrorInfoMeta :=
  let base := errorGroup.base
  match errorGroup with
  | ProcessedError.module _ primaryError =>
    let importType := match primaryError.importType with
      | some it => if it ≠ [] then it else toStr "static"
      | none => toStr "static"
    let environment := match primaryError.errorContext with
      | some ec => match ec.environment with
        | some e => if e ≠ [] then e else toStr "unknown"
        | none => toStr "unknown"
      | none => toStr "unknown"
    let relatedPackages := primaryError.relatedPackages.getD []
    let errorTime := match primaryError.errorContext with
      | some ec => if ec.errorTime ≠ 0 then ec.errorTime else now
      | none => now
    let stackTrace := match primaryError.errorContext with
      | some ec => ec.stackTrace.getD []
      | none => []
    { moduleName := base.moduleName, errorCount := base.errorCount
      filesAffected := base.filesAffected, contextCode := base.content
      docsUrl := primaryError.docsUrl, suggestedFixes := base.suggestedFixes
      importType := importType, environment := environment
      relatedPackages := relatedPackages, errorTime := errorTime
      stackTrace := stackTrace.take 5 }
  | ProcessedError.goroutine _ _ =>
    { moduleName := base.moduleName, errorCount := base.errorCount
      filesAffected := base.filesAffected, contextCode := base.content
      docsUrl := none, suggestedFixes := base.suggestedFixes
      importType := toStr "static", environment := toStr "unknown"
      relatedPackages := [], errorTime := now, stackTrace := [] }

/-- `createModuleErrorAlerts` (alertService.ts lines 195-308).  `genId`
supplies the uuid for the n-th created alert. -/
def AlertService.createModuleErrorAlerts (s : AlertServiceState) (output : Str)
    (now : Nat) (genId : Nat → Str) : AlertServiceState × Option (List ActionAlert) :=
  if output = [] ∨ ¬ jsIncludes output (toStr "Module not found: Can\x27t resolve") then
    (s, none)
  else
    let outputSignature := jsSubstring0 output 150
    let dup := match mapGet s.recentModuleErrors outputSignature with
      | some lastTime => decide (now - lastTime < 2000)
      | none => false
    if dup then (s, none)
    else
      let cache := mapSet s.recentModuleErrors outputSignature now
      let cache := if cache.length > 100 then (sortByValueDesc cache).take 50 else cache
      let s := { s with recentModuleErrors := cache }
      match processModuleErrors output now with
      | none => (s, none)
      | some moduleErrorsInfo =>
        if moduleErrorsInfo.alertGroups.length = 0 then (s, none)
        else
          let currentActiveErrorMap := s.activeAlerts.filterMap (fun alert =>
            if alert.type = toStr "module-error" then
              match alert.metadata with
              | some (AlertMetadata.moduleError mi) =>
                if mi.moduleName ≠ [] then some mi.moduleName else none
              | _ => none
            else none)
          let step := fun (acc : AlertServiceState × List ActionAlert)
              (errorGroup : ProcessedError) =>
            if errorGroup.base.moduleName ∈ currentActiveErrorMap then acc
            else
              let draft : AlertDraft :=
                { id := none, timestamp := none
                  title := errorGroup.base.title
                  description := errorGroup.base.description
                  content := errorGroup.base.content
                  severity := some Severity.error
                  source := some AlertSource.preview
                  actionable := some true
                  type := toStr "module-error"
                  metadata := some (AlertMetadata.moduleError (mkModuleErrorMeta errorGroup now))
                  suggestedAction := none }
              let r := AlertService.createAlert acc.1 draft (genId acc.2.length) now
              (r.1, acc.2 ++ [r.2])
          let res := moduleErrorsInfo.alertGroups.foldl step (s, [])
          (res.1, some res.2)

/- ===================== processConsoleErrors (part_002 lines 1044-1212) ===================== -/

/-- Per-module context accumulator (the `errorContextCache` value type). -/
structure ContextInfo where
  count : Nat
  firstSeen : Nat
  lastSeen : Nat
  contexts : List Str
  sourceTypes : List Str
deriving DecidableEq

/-- The three static caches of `processConsoleErrors`. -/
structure ConsoleErrorCaches where
  lastProcessedErrors : JsMap Nat
  moduleErrorCache : JsMap Nat
  errorContextCache : JsMap ContextInfo
deriving DecidableEq

def ConsoleErrorCaches.initial : ConsoleErrorCaches :=
  { lastProcessedErrors := [], moduleErrorCache := [], errorContextCache := [] }

/-- JS `Set.prototype.add` on an insertion-ordered list. -/
def addToSet (xs : List Str) (x : Str) : List Str := if x ∈ xs then xs else xs ++ [x]

/-- `consoleOutput.match(/Module not found: Can't resolve '([^']+)'/)`,
first match, case-sensitive; empty string when there is no match. -/
def extractConsoleModuleName (consoleOutput : Str) : Str :=
  (scanFirst (fun t =>
    (strAfter (toStr "Module not found: Can\x27t resolve \x27") t).bind fun r1 =>
      greedyClass1 (fun c => c ≠ apos) r1 fun name r2 =>
        (strAfter [apos] r2).map fun _ => name) consoleOutput).getD []

/-- The context-info update performed on both the suppressed-duplicate path
(part_002 lines 1098-1120) and the admitted path (lines 1141-1170); the two
code blocks are verbatim identical.  Count and lastSeen always refresh; the
first 300 characters are appended unless a stored context already contains
the new context's first 100 characters; contexts are capped at 5, oldest
dropped; a source tag is added from substrings of the text. -/
def updateContextInfo (contextInfo : ContextInfo) (consoleOutput : Str) (now : Nat) :
    ContextInfo :=
  let contextInfo := { contextInfo with count := contextInfo.count + 1, lastSeen := now }
  let shortContext := jsSubstring0 consoleOutput 300
  let contexts :=
    if ¬ (contextInfo.contexts.any (fun ctx =>
        jsIncludes ctx (jsSubstring0 shortContext 100))) then
      (if contextInfo.contexts.length ≥ 5 then contextInfo.contexts.drop 1
       else contextInfo.contexts) ++ [shortContext]
    else contextInfo.contexts
  let sourceTypes :=
    if jsIncludes consoleOutput (toStr "webpack-internal:") then
      addToSet contextInfo.sourceTypes (toStr "browser")
    else if jsIncludes consoleOutput (toStr "node_modules") then
      addToSet contextInfo.sourceTypes (toStr "node")
    else contextInfo.sourceTypes
  { contextInfo with contexts := contexts, sourceTypes := sourceTypes }

/-- Result of one `processConsoleErrors` call; `admitted` records whether
the call passed both dedup tiers and reached the final processing block
(`processModuleErrors` + alert creation). -/
structure ConsoleProcessResult where
  caches : ConsoleErrorCaches
  svc : AlertServiceState
  admitted : Bool
deriving DecidableEq

/-- `processConsoleErrors` (part_002 lines 1044-1212). -/
def processConsoleErrors (caches : ConsoleErrorCaches) (svc : AlertServiceState)
    (consoleOutput : Str) (now : Nat) (genId : Nat → Str) : ConsoleProcessResult :=
  if consoleOutput = [] then ⟨caches, svc, false⟩
  else if ¬ jsIncludes consoleOutput (toStr "Module not found: Can\x27t resolve") then
    ⟨caches, svc, false⟩
  else
    let moduleName := extractConsoleModuleName consoleOutput
    let errorSignature := if moduleName ≠ [] then toStr "module-error:" ++ moduleName
      else jsSubstring0 consoleOutput 150
    let moduleSuppressed : Bool :=
      if moduleName = [] then false
      else match mapGet caches.moduleErrorCache moduleName with
        | some lastTime => decide (now - lastTime < 5000)
        | none => false
    if moduleSuppressed then
      let caches := match mapGet caches.errorContextCache moduleName with
        | some contextInfo =>
          let ecc := mapSet caches.errorContextCache moduleName
            (updateContextInfo contextInfo consoleOutput now)
          { caches with errorContextCache := ecc }
        | none => caches
      ⟨caches, svc, false⟩
    else
      let coarseSuppressed : Bool :=
        match mapGet caches.lastProcessedErrors errorSignature with
        | some lastTime => decide (now - lastTime < 1000)
        | none => false
      if coarseSuppressed then ⟨caches, svc, false⟩
      else
        let lpe := mapSet caches.lastProcessedErrors errorSignature now
        let mecEcc :=
          if moduleName ≠ [] then
            let contextInfo := (mapGet caches.errorContextCache moduleName).getD
              { count := 0, firstSeen := now, lastSeen := now
                contexts := [], sourceTypes := [] }
            ( mapSet caches.moduleErrorCache moduleName now
            , mapSet caches.errorContextCache moduleName
                (updateContextInfo contextInfo consoleOutput now) )
          else (caches.moduleErrorCache, caches.errorContextCache)
        let lpe := if lpe.length > 100 then (sortByValueDesc lpe).take 50 else lpe
        let mec := if mecEcc.1.length > 100 then (sortByValueDesc mecEcc.1).take 50
          else mecEcc.1
        let ecc := if mecEcc.2.length > 50 then
            (mecEcc.2.mergeSort (fun a b => decide (b.2.count ≤ a.2.count))).take 25
          else mecEcc.2
        let caches : ConsoleErrorCaches :=
          { lastProcessedErrors := lpe, moduleErrorCache := mec, errorContextCache := ecc }
        let svc := match processModuleErrors consoleOutput now with
          | some _ => (AlertService.createModuleErrorAlerts svc consoleOutput now genId).1
          | none => svc
        ⟨caches, svc, true⟩

/- ===================== getPreviewErrorInfo (part_005 lines 216-265) ===================== -/

/-- `PreviewErrorInfo` as built by `getPreviewErrorInfo`. -/
structure PreviewErrorInfo where
  filePath : Str
  line : Nat
  column : Nat
  errorType : Str
  errorMessage : Str
  severity : Str
  title : Str
  description : Str
deriving DecidableEq

/-- Regex `/\[\[plugin:vite:.*\] ([^:]+): Unterminated template\. \((\d+):(\d+)\)/`
(first match): only `plugin:vite:`-tagged messages; greedy `.*` stays on
one line and prefers the rightmost viable `] `. -/
def untermTemplateMatch (content : Str) : Option (Str × Nat × Nat) :=
  scanFirst (fun t =>
    (strAfter (toStr "[[plugin:vite:") t).bind fun r1 =>
      greedyStar notNL r1 fun r2 =>
        (strAfter (toStr "] ") r2).bind fun r3 =>
          greedyClass1 (fun c => c ≠ ':') r3 fun file r4 =>
            (strAfter (toStr ": Unterminated template. (") r4).bind fun r5 =>
              digits1 r5 fun ln r6 =>
                (strAfter (toStr ":") r6).bind fun r7 =>
                  digits1 r7 fun col r8 =>
                    (strAfter (toStr ")") r8).map fun _ =>
                      (file, parseDigits ln, parseDigits col))
    content

/-- Regex `/\[\[plugin:vite:.*\] ([^:]+): ([^(]+) \((\d+):(\d+)\)/` (first
match), the generic Vite syntax-error shape. -/
def syntaxErrorMatch (content : Str) : Option (Str × Str × Nat × Nat) :=
  scanFirst (fun t =>
    (strAfter (toStr "[[plugin:vite:") t).bind fun r1 =>
      greedyStar notNL r1 fun r2 =>
        (strAfter (toStr "] ") r2).bind fun r3 =>
          greedyClass1 (fun c => c ≠ ':') r3 fun file r4 =>
            (strAfter (toStr ": ") r4).bind fun r5 =>
              greedyClass1 (fun c => c ≠ '(') r5 fun msg r6 =>
                (strAfter (toStr " (") r6).bind fun r7 =>
                  digits1 r7 fun ln r8 =>
                    (strAfter (toStr ":") r8).bind fun r9 =>
                      digits1 r9 fun col r10 =>
                        (strAfter (toStr ")") r10).map fun _ =>
                          (file, msg, parseDigits ln, parseDigits col))
    content

/-- `getPreviewErrorInfo` (part_005 lines 216-265). -/
def getPreviewErrorInfo (content : Str) : Option PreviewErrorInfo :=
  if content = [] then none
  else
    match untermTemplateMatch content with
    | some m =>
      some { filePath := m.1, line := m.2.1, column := m.2.2
             errorType := toStr "syntax"
             errorMessage := toStr "Unterminated template"
             severity := toStr "error"
             title := toStr "Erro de sintaxe: Template não terminado"
             description := toStr "Existe um template não terminado no arquivo " ++
               m.1 ++ toStr " na linha " ++ natRepr m.2.1 ++ toStr "." }
    | none =>
      match syntaxErrorMatch content with
      | some m =>
        let errorMessage := jsTrim m.2.1
        some { filePath := m.1, line := m.2.2.1, column := m.2.2.2
               errorType := toStr "syntax"
               errorMessage := errorMessage
               severity := toStr "error"
               title := toStr "Erro de sintaxe: " ++ errorMessage
               description := toStr "Ocorreu um erro de sintaxe no arquivo " ++ m.1 ++
                 toStr " na linha " ++ natRepr m.2.2.1 ++ toStr ": " ++ errorMessage }
      | none => none

/- ============ Terminal-output boundary (webcontainer/index.ts lines 63-292) ============ -/

/-- `checkForNpmError` result shape. -/
structure NpmErrorInfo where
  title : Str
  description : Str
  severity : Str
  moduleName : Str
deriving DecidableEq

/-- `s.replace(/@.*$/, '')`: drop everything from the first `@` that is
followed only by non-newline characters up to the end. -/
def replaceAtToEnd : Str → Str
  | [] => []
  | c :: t =>
    if c = '@' ∧ t.all notNL then []
    else c :: replaceAtToEnd t

/-- `checkForNpmError` (webcontainer/index.ts lines 238-287). -/
def checkForNpmError (output : Str) : Option NpmErrorInfo :=
  let versionMatch := scanFirst (fun t =>
    (strAfter (toStr "No matching version found for ") t).bind fun r1 =>
      greedyClass1 (fun c => c ≠ '@') r1 fun g1 r2 =>
        (strAfter (toStr "@") r2).bind fun r3 =>
          greedyClass1 (fun c => c ≠ '.') r3 fun g2 _r4 => some (g1, g2)) output
  match versionMatch with
  | some (g1, g2) =>
    some { title := toStr "Versão do Pacote não Encontrada"
           description := toStr "Não foi possível encontrar a versão " ++ g2 ++
             toStr " do pacote " ++ g1 ++ toStr "."
           severity := toStr "error", moduleName := g1 }
  | none =>
    let moduleMatch := scanFirst (fun t =>
      (strAfter (toStr "npm ERR! 404 Not Found - GET ") t).bind fun r1 =>
        greedyClass1 (fun c => c ≠ ' ') r1 fun g1 _r2 => some g1) output
    match moduleMatch with
    | some g1 =>
      let component := ((jsSplit '/' g1).getLast?).getD []
      let cleaned := replaceAtToEnd component
      let moduleName := if cleaned ≠ [] then cleaned else toStr "unknown"
      some { title := toStr "Pacote não Encontrado"
             description := toStr "O pacote " ++ moduleName ++
               toStr " não foi encontrado no registro npm."
             severity := toStr "error", moduleName := moduleName }
    | none =>
      if jsIncludes output (toStr "npm ERR! code EACCES") then
        some { title := toStr "Erro de Permissão"
               description := toStr "Não foi possível acessar o diretório devido a permissões insuficientes."
               severity := toStr "error", moduleName := toStr "system" }
      else if jsIncludes output (toStr "npm ERR! code ENOTFOUND") ∨
          jsIncludes output (toStr "npm ERR! network") then
        some { title := toStr "Erro de Rede"
               description := toStr "Não foi possível conectar ao registro npm. Verifique sua conexão com a internet."
               severity := toStr "error", moduleName := toStr "network" }
      else none

/-- `isNpmInstallOutput` (webcontainer/index.ts lines 229-235). -/
def isNpmInstallOutput (output : Str) : Bool :=
  jsIncludes output (toStr "preloadMetadata") || jsIncludes output (toStr "npm WARN") ||
    (jsIncludes output (toStr "npm") && jsIncludes output (toStr "packages from"))

/-- `isEsbuildError` (webcontainer/index.ts lines 290-292). -/
def isEsbuildError (output : Str) : Bool :=
  jsIncludes output (toStr "[esbuild]") &&
    (jsIncludes output (toStr "error:") || jsIncludes output (toStr "failed to"))

/-- Metadata `Record` attached to the alerts dispatched on `bolt:alert`. -/
inductive WCMetadata
  | moduleInfo (moduleName filePath : Str) (loc : Option (Str × Nat × Nat))
  | goroutineInfo (goroutineId errorType st : Str) (loc : Option (Str × Option Nat))
  | npmInfo (moduleName : Str)
deriving DecidableEq

def severityStr : Severity → Str
  | Severity.info => toStr "info"
  | Severity.warning => toStr "warning"
  | Severity.error => toStr "error"
  | Severity.critical => toStr "critical"

/-- Shape of the alerts `debouncedProcessErrors` dispatches via
`window.dispatchEvent(new CustomEvent('bolt:alert', ...))`. -/
structure WCAlert where
  id : Str
  type : Str
  title : Str
  description : Str
  content : Str
  severity : Str
  source : Str
  timestamp : Nat
  actionable : Bool
  metadata : Option WCMetadata
  suggestedAction : Option Str
deriving DecidableEq

/-- The alert built for one processed group (webcontainer/index.ts lines
74-125); `now`/`rand` stand for `Date.now()` and the random id suffix. -/
def mkGroupWCAlert (now rand : Nat) (errorGroup : ProcessedError) : WCAlert :=
  let base := errorGroup.base
  let metadata := match errorGroup with
    | ProcessedError.module _ primaryError =>
      WCMetadata.moduleInfo base.moduleName primaryError.filePath
        (if primaryError.filePath ≠ [] then
          some (primaryError.filePath, primaryError.lineNumber, primaryError.columnNumber)
        else none)
    | ProcessedError.goroutine _ primaryError =>
      WCMetadata.goroutineInfo primaryError.goroutineId primaryError.errorType
        primaryError.state
        (match primaryError.additionalInfo with
         | some ai => match ai.file with
           | some f => if f ≠ [] then some (f, ai.line) else none
           | none => none
         | none => none)
  { id := toStr "err-" ++ natRepr now ++ toStr "-" ++ natRepr rand
    type := match errorGroup with
      | ProcessedError.module _ _ => toStr "module-error"
      | ProcessedError.goroutine _ _ => toStr "goroutine-error"
    title := base.title, description := base.description, content := base.content
    severity := severityStr base.severity, source := toStr "terminal"
    timestamp := now, actionable := base.actionable
    metadata := some metadata
    suggestedAction := base.suggestedFixes.head? }

/-- The fallback alert of the `catch` block (webcontainer/index.ts lines
209-219). -/
def fallbackAlert (errorText : Str) (now rand : Nat) : WCAlert :=
  { id := toStr "fallback-err-" ++ natRepr now ++ toStr "-" ++ natRepr rand
    type := toStr "processing-error"
    title := toStr "Erro de Processamento"
    description := toStr "Ocorreu um erro ao processar as mensagens de erro"
    content := errorText
    severity := toStr "info", source := toStr "system"
    timestamp := now, actionable := false
    metadata := none, suggestedAction := none }

/-- The classification/grouping stages the `try` block calls; each may
throw (`Except.error`), modelling a JS runtime exception inside
classification or grouping. -/
structure WCStages (ε : Type) where
  processModuleErrorsE : Str → Except ε (Option ProcessedErrorResult)
  processConsoleErrorsE : Str → Except ε Unit
  checkForNpmErrorE : Str → Except ε (Option NpmErrorInfo)
  isNpmInstallOutputE : Str → Except ε Bool
  isEsbuildErrorE : Str → Except ε Bool

/-- The `try` block of the debounced timer body (webcontainer/index.ts
lines 68-206): returns the alerts dispatched before returning or before an
exception, and the exception if one was thrown. -/
def debouncedTryBody (st : WCStages ε) (errorText : Str) (now rand : Nat) :
    List WCAlert × Option ε :=
  match st.processModuleErrorsE errorText with
  | Except.error e => ([], some e)
  | Except.ok processedErrors =>
    let laterStages : Unit → List WCAlert × Option ε := fun _ =>
      match st.checkForNpmErrorE errorText with
      | Except.error e => ([], some e)
      | Except.ok (some npmErrorInfo) =>
        ([ { id := toStr "npm-err-" ++ natRepr now ++ toStr "-" ++ natRepr rand
             type := toStr "npm-error"
             title := npmErrorInfo.title, description := npmErrorInfo.description
             content := errorText, severity := npmErrorInfo.severity
             source := toStr "terminal", timestamp := now, actionable := true
             metadata := some (WCMetadata.npmInfo npmErrorInfo.moduleName)
             suggestedAction := some (toStr "npm install " ++ npmErrorInfo.moduleName) } ],
         none)
      | Except.ok none =>
        match st.isNpmInstallOutputE errorText with
        | Except.error e => ([], some e)
        | Except.ok true => ([], none)
        | Except.ok false =>
          match st.isEsbuildErrorE errorText with
          | Except.error e => ([], some e)
          | Except.ok true =>
            ([ { id := toStr "esbuild-err-" ++ natRepr now ++ toStr "-" ++ natRepr rand
                 type := toStr "esbuild-error"
                 title := toStr "Erro de Build"
                 description := toStr "Ocorreu um erro durante o build do esbuild"
                 content := errorText, severity := toStr "error"
                 source := toStr "terminal", timestamp := now, actionable := true
                 metadata := none, suggestedAction := none } ], none)
          | Except.ok false =>
            ([ { id := toStr "generic-err-" ++ natRepr now ++ toStr "-" ++ natRepr rand
                 type := toStr "generic-error"
                 title := toStr "Erro de Terminal"
                 description := toStr "Ocorreu um erro durante a execução do comando"
                 content := errorText, severity := toStr "warning"
                 source := toStr "terminal", timestamp := now, actionable := false
                 metadata := none, suggestedAction := none } ], none)
    match processedErrors with
    | some pr =>
      if pr.alertGroups.length > 0 then
        let alerts := pr.alertGroups.map (mkGroupWCAlert now rand)
        match st.processConsoleErrorsE errorText with
        | Except.error e => (alerts, some e)
        | Except.ok _ => (alerts, none)
      else laterStages ()
    | none => laterStages ()

/-- The whole timer body with its `try`/`catch` boundary (webcontainer/
index.ts lines 67-224): a thrown exception is caught and converted into
the fallback alert; nothing propagates to the caller (the return type has
no error component). -/
def debouncedProcessErrorsFire (st : WCStages ε) (errorText : Str) (now rand : Nat) :
    List WCAlert :=
  match debouncedTryBody st errorText now rand with
  | (alerts, none) => alerts
  | (alerts, some _) => alerts ++ [fallbackAlert errorText now rand]


/- ===================== Store lemmas ===================== -/

theorem findIdx?_lt_length {α : Type _} {p : α → Bool} :
    ∀ {l : List α} {j : Nat}, List.findIdx? p l = some j → j < l.length := by
  intro l
  induction l with
  | nil => intro j h; simp [List.findIdx?] at h
  | cons x xs ih =>
    intro j h
    rw [List.findIdx?_cons] at h
    by_cases hx : p x
    · simp [hx] at h
      simp only [List.length_cons]
      omega
    · simp [hx] at h
      obtain ⟨a, ha, rfl⟩ := h
      have := ih ha
      simp only [List.length_cons]
      omega

theorem addToHistory_take (history : List ActionAlert) (alert : ActionAlert) :
    AlertService.addToHistory history alert =
      (alert :: history).take AlertService.maxHistorySize := by
  simp only [AlertService.addToHistory]
  split
  · rfl
  · rw [List.take_of_length_le]
    omega

theorem createAlert_history (s : AlertServiceState) (d : AlertDraft) (g : Str) (n : Nat) :
    (AlertService.createAlert s d g n).1.alertHistory =
      (AlertService.mkAlert d g n :: s.alertHistory).take AlertService.maxHistorySize := by
  simp only [AlertService.createAlert]
  split
  · split
    · simp [addToHistory_take]
    · split
      · simp [addToHistory_take]
      · simp [addToHistory_take]
  · simp [addToHistory_take]

theorem createAlert_active_le (s : AlertServiceState) (d : AlertDraft) (g : Str) (n : Nat)
    (h : s.activeAlerts.length ≤ AlertService.maxActiveAlerts) :
    (AlertService.createAlert s d g n).1.activeAlerts.length ≤
      AlertService.maxActiveAlerts := by
  simp only [AlertService.createAlert]
  split
  · rename_i hfull
    simp only [AlertService.maxActiveAlerts] at h hfull ⊢
    split
    · rename_i i hfind
      have hi : i < s.activeAlerts.length := findIdx?_lt_length hfind
      simp only [List.length_append, List.length_eraseIdx, if_pos hi, List.length_cons,
        List.length_nil]
      omega
    · split
      · simpa using h
      · simp only [List.length_append, List.length_drop, List.length_cons, List.length_nil]
        omega
  · rename_i hfull
    simp only [AlertService.maxActiveAlerts] at h hfull ⊢
    simp only [List.length_append, List.length_cons, List.length_nil]
    omega

theorem applyOp_active_le (s : AlertServiceState) (op : StoreOp)
    (h : s.activeAlerts.length ≤ AlertService.maxActiveAlerts) :
    (applyOp s op).activeAlerts.length ≤ AlertService.maxActiveAlerts := by
  cases op with
  | create d g n => exact createAlert_active_le s d g n h
  | clear i =>
    cases i with
    | some id =>
      simp only [applyOp, AlertService.clearAlert]
      exact le_trans (List.length_filter_le _ _) h
    | none => simp [applyOp, AlertService.clearAlert]

theorem runOps_active_le (ops : List StoreOp) :
    ∀ (s : AlertServiceState), s.activeAlerts.length ≤ AlertService.maxActiveAlerts →
      (runOps ops s).activeAlerts.length ≤ AlertService.maxActiveAlerts := by
  induction ops with
  | nil => intro s h; exact h
  | cons op rest ih =>
    intro s h
    exact ih (applyOp s op) (applyOp_active_le s op h)

theorem take_append_take {α : Type _} (x y : List α) (n : Nat) :
    (x ++ y.take n).take n = (x ++ y).take n := by
  rw [List.take_append_eq_append_take, List.take_append_eq_append_take, List.take_take]
  rw [min_eq_left (Nat.sub_le _ _)]

theorem applyOp_history_clear (s : AlertServiceState) (i : Option Str) :
    (applyOp s (StoreOp.clear i)).alertHistory = s.alertHistory := by
  cases i <;> simp [applyOp, AlertService.clearAlert]

theorem runOps_history (ops : List StoreOp) :
    ∀ (s : AlertServiceState), s.alertHistory.length ≤ AlertService.maxHistorySize →
      (runOps ops s).alertHistory =
        ((createdAlerts ops).reverse ++ s.alertHistory).take AlertService.maxHistorySize := by
  induction ops with
  | nil =>
    intro s h
    simp only [runOps, List.foldl_nil, createdAlerts, List.reverse_nil, List.nil_append]
    exact (List.take_of_length_le h).symm
  | cons op rest ih =>
    intro s h
    cases op with
    | create d g n =>
      have hstep : (applyOp s (StoreOp.create d g n)).alertHistory =
          (AlertService.mkAlert d g n :: s.alertHistory).take AlertService.maxHistorySize :=
        createAlert_history s d g n
      have hlen : (applyOp s (StoreOp.create d g n)).alertHistory.length ≤
          AlertService.maxHistorySize := by
        rw [hstep]; exact List.length_take_le _ _
      have hres := ih (applyOp s (StoreOp.create d g n)) hlen
      show (runOps rest (applyOp s (StoreOp.create d g n))).alertHistory = _
      rw [hres, hstep, take_append_take, createdAlerts]
      simp only [List.reverse_cons, List.append_assoc, List.cons_append, List.nil_append]
    | clear i =>
      have hstep := applyOp_history_clear s i
      have hlen : (applyOp s (StoreOp.clear i)).alertHistory.length ≤
          AlertService.maxHistorySize := by rw [hstep]; exact h
      have hres := ih (applyOp s (StoreOp.clear i)) hlen
      show (runOps rest (applyOp s (StoreOp.clear i))).alertHistory = _
      rw [hres, hstep, createdAlerts]

/- ===================== Claim theorems: alert store ===================== -/

/-- C1: over every sequence of `createAlert`/`clearAlert` operations from
the empty store the active set never exceeds C = 20; and when all 20 active
slots hold critical alerts and a new critical alert is created, the
earliest-inserted active alert is evicted, the new one appended, the count
stays 20, and every active alert is still critical. -/
theorem claim_C1 (ops : List StoreOp) (s : AlertServiceState) (d : AlertDraft)
    (g : Str) (n : Nat)
    (hlen : s.activeAlerts.length = 20)
    (hcrit : ∀ x ∈ s.activeAlerts, x.severity = Severity.critical)
    (hnew : (AlertService.mkAlert d g n).severity = Severity.critical) :
    (runOps ops AlertService.initial).activeAlerts.length ≤ 20 ∧
    (AlertService.createAlert s d g n).1.activeAlerts =
      s.activeAlerts.drop 1 ++ [AlertService.mkAlert d g n] ∧
    (AlertService.createAlert s d g n).1.activeAlerts.length = 20 ∧
    (∀ x ∈ (AlertService.createAlert s d g n).1.activeAlerts,
      x.severity = Severity.critical) := by
  have hbound : (runOps ops AlertService.initial).activeAlerts.length ≤ 20 := by
    have := runOps_active_le ops AlertService.initial (by simp [AlertService.initial])
    simpa [AlertService.maxActiveAlerts] using this
  have hfind : s.activeAlerts.findIdx?
      (fun a => decide (a.severity ≠ Severity.critical)) = none := by
    rw [List.findIdx?_eq_none_iff]
    intro x hx
    simp [hcrit x hx]
  have hactive : (AlertService.createAlert s d g n).1.activeAlerts =
      s.activeAlerts.drop 1 ++ [AlertService.mkAlert d g n] := by
    simp only [AlertService.createAlert, AlertService.maxActiveAlerts]
    rw [if_pos (by omega), hfind]
    simp [hnew]
  refine ⟨hbound, hactive, ?_, ?_⟩
  · rw [hactive]
    simp only [List.length_append, List.length_drop, List.length_cons, List.length_nil]
    omega
  · intro x hx
    rw [hactive] at hx
    rcases List.mem_append.1 hx with hx | hx
    · exact hcrit x (List.mem_of_mem_drop hx)
    · simp only [List.mem_singleton] at hx
      rw [hx]
      exact hnew

/-- C6: when the active set holds 20 critical alerts and the new alert is
not critical, the active set is unchanged while the alert is still
prepended to History (trimmed to 50). -/
theorem claim_C6 (s : AlertServiceState) (d : AlertDraft) (g : Str) (n : Nat)
    (hlen : s.activeAlerts.length = 20)
    (hcrit : ∀ x ∈ s.activeAlerts, x.severity = Severity.critical)
    (hnew : (AlertService.mkAlert d g n).severity ≠ Severity.critical) :
    (AlertService.createAlert s d g n).1.activeAlerts = s.activeAlerts ∧
    (AlertService.createAlert s d g n).1.alertHistory =
      (AlertService.mkAlert d g n :: s.alertHistory).take 50 ∧
    (AlertService.createAlert s d g n).2 = AlertService.mkAlert d g n := by
  have hfind : s.activeAlerts.findIdx?
      (fun a => decide (a.severity ≠ Severity.critical)) = none := by
    rw [List.findIdx?_eq_none_iff]
    intro x hx
    simp [hcrit x hx]
  have hhist := createAlert_history s d g n
  refine ⟨?_, by simpa [AlertService.maxHistorySize] using hhist, ?_⟩
  · simp only [AlertService.createAlert, AlertService.maxActiveAlerts]
    rw [if_pos (by omega), hfind]
    simp [hnew]
  · simp only [AlertService.createAlert, AlertService.maxActiveAlerts]
    rw [if_pos (by omega), hfind]
    simp [hnew]

/-- C7: after any operation sequence from the empty store, History is
exactly the 50 most recently created alerts, newest first (index 0 is the
latest), regardless of rejection from or eviction out of the active set. -/
theorem claim_C7 (ops : List StoreOp) :
    (runOps ops AlertService.initial).alertHistory =
      (createdAlerts ops).reverse.take 50 := by
  have := runOps_history ops AlertService.initial (by simp [AlertService.initial])
  simpa [AlertService.initial, AlertService.maxHistorySize] using this

/-- C8: `clearAlert id` removes exactly the alert with that id (when the
id occurs exactly once), keeps every other active alert in order, and
never touches History; `clearAlert` with no id empties the active set and
also leaves History unchanged. -/
theorem claim_C8 (s : AlertServiceState) (id : Str) :
    (AlertService.clearAlert s (some id)).alertHistory = s.alertHistory ∧
    (AlertService.clearAlert s none).alertHistory = s.alertHistory ∧
    (AlertService.clearAlert s none).activeAlerts = [] ∧
    (s.activeAlerts.countP (fun a => a.id = id) = 1 →
      (AlertService.clearAlert s (some id)).activeAlerts.length + 1 =
        s.activeAlerts.length ∧
      (AlertService.clearAlert s (some id)).activeAlerts.Sublist s.activeAlerts ∧
      (∀ a ∈ s.activeAlerts, a.id ≠ id →
        a ∈ (AlertService.clearAlert s (some id)).activeAlerts) ∧
      (∀ a ∈ (AlertService.clearAlert s (some id)).activeAlerts, a.id ≠ id)) := by
  refine ⟨rfl, rfl, rfl, fun hcount => ⟨?_, ?_, ?_, ?_⟩⟩
  · have hsplit : (s.activeAlerts.filter (fun a => !decide (a.id = id))).length +
        s.activeAlerts.countP (fun a => a.id = id) = s.activeAlerts.length := by
      clear hcount
      induction s.activeAlerts with
      | nil => simp
      | cons x t ih =>
        by_cases hx : x.id = id <;>
          simp [List.filter_cons, List.countP_cons, hx] <;> omega
    simp only [AlertService.clearAlert, ne_eq, decide_not]
    omega
  · exact List.filter_sublist _
  · intro a ha hne
    simp only [AlertService.clearAlert, List.mem_filter]
    exact ⟨ha, by simpa using hne⟩
  · intro a ha
    simp only [AlertService.clearAlert, List.mem_filter] at ha
    simpa using ha.2

/- ===================== Witness fixtures ===================== -/

/-- A concrete critical alert used in store witnesses. -/
def sampleCritical (k : Nat) : ActionAlert :=
  { id := natRepr k, type := toStr "system", title := [], description := [],
    content := [], source := some AlertSource.system, severity := Severity.critical,
    timestamp := 0, metadata := none, actionable := false, suggestedAction := none }

/-- A store whose 20 active slots all hold critical alerts. -/
def fullCriticalState : AlertServiceState :=
  { activeAlerts := (List.range 20).map sampleCritical
    alertHistory := [], recentModuleErrors := [] }

/-- A concrete draft with the given severity. -/
def sampleDraft (sev : Severity) : AlertDraft :=
  { id := none, timestamp := none, type := toStr "system", title := [],
    description := [], content := [], source := some AlertSource.system,
    severity := some sev, metadata := none, actionable := some false,
    suggestedAction := none }

theorem claim_C1_witness :
    (AlertService.createAlert fullCriticalState (sampleDraft Severity.critical)
      (toStr "new") 5).1.activeAlerts.length = 20 :=
  (claim_C1 [] fullCriticalState (sampleDraft Severity.critical) (toStr "new") 5
    (by decide) (by decide) (by decide)).2.2.1

theorem claim_C6_witness :
    (AlertService.createAlert fullCriticalState (sampleDraft Severity.info)
      (toStr "new") 5).1.activeAlerts = fullCriticalState.activeAlerts :=
  (claim_C6 fullCriticalState (sampleDraft Severity.info) (toStr "new") 5
    (by decide) (by decide) (by decide)).1

theorem claim_C8_witness :
    (AlertService.clearAlert fullCriticalState (some (natRepr 3))).activeAlerts.length + 1 =
      fullCriticalState.activeAlerts.length :=
  ((claim_C8 fullCriticalState (natRepr 3)).2.2.2 (by decide)).1

/- ===================== Claim theorem: C10 ===================== -/

/-- C10: for any input not containing the literal
`Module not found: Can't resolve`, `createModuleErrorAlerts` returns null
and leaves the whole service state (dedup cache, active set, history)
untouched. -/
theorem claim_C10 (s : AlertServiceState) (output : Str) (now : Nat) (genId : Nat → Str)
    (h : jsIncludes output (toStr "Module not found: Can\x27t resolve") = false) :
    AlertService.createModuleErrorAlerts s output now genId = (s, none) := by
  unfold AlertService.createModuleErrorAlerts
  rw [if_pos (Or.inr (by simp [h]))]

theorem claim_C10_witness :
    jsIncludes (toStr "npm ERR! 404 @my-scope/my-lib@2.0.0 is not in the npm registry")
      (toStr "Module not found: Can\x27t resolve") = false ∧
    AlertService.createModuleErrorAlerts AlertService.initial
      (toStr "npm ERR! 404 @my-scope/my-lib@2.0.0 is not in the npm registry") 0
      (fun _ => []) = (AlertService.initial, none) :=
  ⟨by decide, claim_C10 _ _ _ _ (by decide)⟩



/- ===================== Map lemmas ===================== -/

theorem find?_map_set {β : Type _} (k : Str) (v : β) :
    ∀ (m : JsMap β), mapHas m k = true →
      (m.map (fun e => if e.1 = k then (k, v) else e)).find?
        (fun e => e.1 = k) = some (k, v) := by
  intro m
  induction m with
  | nil => intro hh; simp [mapHas] at hh
  | cons e t ih =>
    intro hh
    by_cases he : e.1 = k
    · simp only [List.map_cons, if_pos he]
      rw [List.find?_cons]
      simp only [decide_True]
    · have hh' : mapHas t k = true := by
        rw [mapHas, List.find?_cons] at hh
        simp only [he, decide_False] at hh
        exact hh
      simp only [List.map_cons, if_neg he]
      rw [List.find?_cons]
      simp only [he, decide_False]
      exact ih hh'

theorem find?_append_absent {β : Type _} (k : Str) (v : β) :
    ∀ (m : JsMap β), mapHas m k = false →
      (m ++ [(k, v)]).find? (fun e => e.1 = k) = some (k, v) := by
  intro m
  induction m with
  | nil =>
    intro _
    simp only [List.nil_append]
    rw [List.find?_cons]
    simp only [decide_True]
  | cons e t ih =>
    intro hh
    by_cases he : e.1 = k
    · rw [mapHas, List.find?_cons] at hh
      simp [he] at hh
    · have hh' : mapHas t k = false := by
        rw [mapHas, List.find?_cons] at hh
        simp only [he, decide_False] at hh
        exact hh
      simp only [List.cons_append]
      rw [List.find?_cons]
      simp only [he, decide_False]
      exact ih hh'

theorem mapGet_mapSet_self {β : Type _} (m : JsMap β) (k : Str) (v : β) :
    mapGet (mapSet m k v) k = some v := by
  by_cases hh : mapHas m k
  · rw [mapSet, if_pos hh, mapGet, find?_map_set k v m hh]
    rfl
  · rw [mapSet, if_neg hh, mapGet,
      find?_append_absent k v m (by simpa using hh)]
    rfl


/- ===================== Claim theorems: dedup cache (C2) ===================== -/

/-- C2 (amended): an occurrence is admitted (reaches the alert-creation
block) only if both the module tier (5 s window) and the coarse signature
tier (1 s window) report their keys stale; on suppression by the module
tier the per-module ContextAccumulator is updated only when an entry for
the module already exists (count incremented, lastSeen refreshed,
context/tag rules applied); a module-tier suppression whose module has no
accumulator entry leaves every cache untouched, as do coarse-tier
suppressions. -/
theorem claim_C2 (caches : ConsoleErrorCaches) (svc : AlertServiceState)
    (output : Str) (now : Nat) (genId : Nat → Str) :
    ((processConsoleErrors caches svc output now genId).admitted = true →
      (∀ t, extractConsoleModuleName output ≠ [] →
        mapGet caches.moduleErrorCache (extractConsoleModuleName output) = some t →
        5000 ≤ now - t) ∧
      (∀ t, mapGet caches.lastProcessedErrors
          (if extractConsoleModuleName output ≠ [] then
            toStr "module-error:" ++ extractConsoleModuleName output
          else jsSubstring0 output 150) = some t → 1000 ≤ now - t)) ∧
    (∀ t ci, jsIncludes output (toStr "Module not found: Can\x27t resolve") = true →
      extractConsoleModuleName output ≠ [] →
      mapGet caches.moduleErrorCache (extractConsoleModuleName output) = some t →
      now - t < 5000 →
      mapGet caches.errorContextCache (extractConsoleModuleName output) = some ci →
      (processConsoleErrors caches svc output now genId).admitted = false ∧
      mapGet (processConsoleErrors caches svc output now genId).caches.errorContextCache
        (extractConsoleModuleName output) = some (updateContextInfo ci output now) ∧
      (updateContextInfo ci output now).count = ci.count + 1 ∧
      (updateContextInfo ci output now).lastSeen = now) ∧
    (∀ t, jsIncludes output (toStr "Module not found: Can\x27t resolve") = true →
      extractConsoleModuleName output ≠ [] →
      mapGet caches.moduleErrorCache (extractConsoleModuleName output) = some t →
      now - t < 5000 →
      mapGet caches.errorContextCache (extractConsoleModuleName output) = none →
      processConsoleErrors caches svc output now genId = ⟨caches, svc, false⟩) ∧
    (∀ t, jsIncludes output (toStr "Module not found: Can\x27t resolve") = true →
      (if extractConsoleModuleName output = [] then false
        else match mapGet caches.moduleErrorCache (extractConsoleModuleName output) with
          | some lastTime => decide (now - lastTime < 5000)
          | none => false) = false →
      mapGet caches.lastProcessedErrors
        (if extractConsoleModuleName output ≠ [] then
          toStr "module-error:" ++ extractConsoleModuleName output
        else jsSubstring0 output 150) = some t →
      now - t < 1000 →
      processConsoleErrors caches svc output now genId = ⟨caches, svc, false⟩) := by
  refine ⟨?_, ?_, ?_, ?_⟩
  · intro hadm
    constructor
    · intro t hmn ht
      by_contra hge
      push_neg at hge
      by_cases h0 : output = []
      · simp [processConsoleErrors, h0] at hadm
      · by_cases h1 : jsIncludes output (toStr "Module not found: Can\x27t resolve") = true
        · have hfalse : (processConsoleErrors caches svc output now genId).admitted
              = false := by
            unfold processConsoleErrors
            rw [if_neg h0, if_neg (not_not_intro h1)]
            simp only []
            rw [ht]
            simp only [if_neg hmn]
            rw [if_pos (by exact decide_eq_true hge)]
          rw [hfalse] at hadm
          simp at hadm
        · simp [processConsoleErrors, h0, h1] at hadm
    · intro t ht
      by_contra hge
      push_neg at hge
      by_cases h0 : output = []
      · simp [processConsoleErrors, h0] at hadm
      · by_cases h1 : jsIncludes output (toStr "Module not found: Can\x27t resolve") = true
        · cases hms : (if extractConsoleModuleName output = [] then false
              else match mapGet caches.moduleErrorCache (extractConsoleModuleName output) with
                | some lastTime => decide (now - lastTime < 5000)
                | none => false) with
          | true =>
            have hfalse : (processConsoleErrors caches svc output now genId).admitted
                = false := by
              unfold processConsoleErrors
              rw [if_neg h0, if_neg (not_not_intro h1)]
              simp only []
              rw [hms, if_pos rfl]
            rw [hfalse] at hadm
            simp at hadm
          | false =>
            have hfalse : (processConsoleErrors caches svc output now genId).admitted
                = false := by
              unfold processConsoleErrors
              rw [if_neg h0, if_neg (not_not_intro h1)]
              simp only []
              rw [hms]
              rw [if_neg (by simp)]
              rw [ht]
              rw [if_pos (by exact decide_eq_true hge)]
            rw [hfalse] at hadm
            simp at hadm
        · simp [processConsoleErrors, h0, h1] at hadm
  · intro t ci h1 hmn ht hfresh hci
    have h0 : ¬ output = [] := by
      intro h
      rw [h] at h1
      exact absurd h1 (by decide)
    have hres : processConsoleErrors caches svc output now genId =
        ⟨⟨caches.lastProcessedErrors, caches.moduleErrorCache,
            mapSet caches.errorContextCache (extractConsoleModuleName output)
              (updateContextInfo ci output now)⟩,
          svc, false⟩ := by
      unfold processConsoleErrors
      rw [if_neg h0, if_neg (not_not_intro h1)]
      simp only []
      rw [ht, hci]
      simp only [if_neg hmn]
      rw [if_pos (by exact decide_eq_true hfresh)]
    refine ⟨by rw [hres], ?_, rfl, rfl⟩
    rw [hres]
    exact mapGet_mapSet_self _ _ _
  · intro t h1 hmn ht hfresh hci
    have h0 : ¬ output = [] := by
      intro h
      rw [h] at h1
      exact absurd h1 (by decide)
    unfold processConsoleErrors
    rw [if_neg h0, if_neg (not_not_intro h1)]
    simp only []
    rw [ht, hci]
    simp only [if_neg hmn]
    rw [if_pos (by exact decide_eq_true hfresh)]
  · intro t h1 hms ht hfresh
    have h0 : ¬ output = [] := by
      intro h
      rw [h] at h1
      exact absurd h1 (by decide)
    unfold processConsoleErrors
    rw [if_neg h0, if_neg (not_not_intro h1)]
    simp only []
    rw [hms]
    rw [if_neg (by simp)]
    rw [ht]
    rw [if_pos (by exact decide_eq_true hfresh)]

/-- The concrete suppressed occurrence refuting the original C2: module
name `x` is extractable, the module tier is fresh (seen at 0, again at
100 ms), but the context cache has no entry for `x` (reachable after a
context-cache compaction), so nothing is accumulated. -/
def cexC2Input : Str := toStr "Module not found: Can\x27t resolve \x27x\x27"

def cexC2Caches : ConsoleErrorCaches :=
  { lastProcessedErrors := [], moduleErrorCache := [(toStr "x", 0)]
    errorContextCache := [] }

/-- C2 counterexample: a suppressed occurrence with an extractable module
name after which the ContextAccumulator is not updated at all (the context
cache stays empty, so no count is incremented). -/
theorem claim_C2_counterexample :
    extractConsoleModuleName cexC2Input = toStr "x" ∧
    (processConsoleErrors cexC2Caches AlertService.initial cexC2Input 100
      (fun _ => [])).admitted = false ∧
    (processConsoleErrors cexC2Caches AlertService.initial cexC2Input 100
      (fun _ => [])).caches.errorContextCache = [] :=
  ⟨by decide, by decide, by decide⟩

theorem claim_C2_witness :
    processConsoleErrors cexC2Caches AlertService.initial cexC2Input 100 (fun _ => []) =
      ⟨cexC2Caches, AlertService.initial, false⟩ :=
  (claim_C2 cexC2Caches AlertService.initial cexC2Input 100 (fun _ => [])).2.2.1 0
    (by decide) (by decide) (by decide) (by decide) (by decide)

/- ===================== Claim theorem: C9 ===================== -/

/-- C9: an exception thrown inside classification/grouping is caught at the
timer-body boundary and never propagates (the result type carries no
error); the alerts dispatched before the exception are followed by exactly
one fallback alert of type `processing-error`, source `system`, severity
`info` (the lowest), carrying the original raw text as content. -/
theorem claim_C9 {ε : Type _} (st : WCStages ε) (errorText : Str) (now rand : Nat)
    (alerts : List WCAlert) (e : ε)
    (h : debouncedTryBody st errorText now rand = (alerts, some e)) :
    debouncedProcessErrorsFire st errorText now rand =
      alerts ++ [fallbackAlert errorText now rand] ∧
    (fallbackAlert errorText now rand).type = toStr "processing-error" ∧
    (fallbackAlert errorText now rand).source = toStr "system" ∧
    (fallbackAlert errorText now rand).severity = toStr "info" ∧
    (fallbackAlert errorText now rand).content = errorText ∧
    (fallbackAlert errorText now rand).actionable = false := by
  refine ⟨?_, rfl, rfl, rfl, rfl, rfl⟩
  unfold debouncedProcessErrorsFire
  rw [h]

/-- A stage assignment whose classification step throws. -/
def throwingStages : WCStages Unit :=
  { processModuleErrorsE := fun _ => Except.error ()
    processConsoleErrorsE := fun _ => Except.ok ()
    checkForNpmErrorE := fun _ => Except.ok none
    isNpmInstallOutputE := fun _ => Except.ok false
    isEsbuildErrorE := fun _ => Except.ok false }

theorem claim_C9_witness :
    debouncedProcessErrorsFire throwingStages (toStr "raw terminal text") 1 2 =
      [fallbackAlert (toStr "raw terminal text") 1 2] ∧
    (fallbackAlert (toStr "raw terminal text") 1 2).content = toStr "raw terminal text" := by
  have h := claim_C9 throwingStages (toStr "raw terminal text") 1 2 [] () rfl
  exact ⟨by simpa using h.1, h.2.2.2.2.1⟩

/- ===================== Claim theorems: classifier scenarios ===================== -/

/-- The exact input of spec scenario 1 / claim C3. -/
def c3Input : Str :=
  toStr "goroutine 42 [running]:\nruntime: too many writes on closed pipe\n\ngoroutine 36 [running]:\npanic: fatal error: runtime: out of memory"

/-- C3 (code evaluated at the failing input): `detectGoroutineErrors` hits
its exact-string special case and returns goroutine 42 with errorType
`pipe` — not `closed_pipe` as the claim states — together with goroutine
36 / `panic`.  The label `pipe` is inconsistent with the general
closed-pipe rule of the same function and is unhandled by the downstream
`switch`, which has a dedicated `closed_pipe` branch. -/
theorem claim_C3 :
    (detectGoroutineErrors c3Input).map (fun e => (e.goroutineId, e.errorType)) =
      [(toStr "42", toStr "pipe"), (toStr "36", toStr "panic")] ∧
    toStr "pipe" ≠ toStr "closed_pipe" :=
  ⟨by decide, by decide⟩

/-- The registry-404 input of spec scenario 2 / claim C4. -/
def c4Input : Str := toStr "npm ERR! 404 @my-scope/my-lib@2.0.0 is not in the npm registry"

/-- C4 (code evaluated at the failing input): three submissions of the
registry-404 line within one second create no alert at all —
`createModuleErrorAlerts` rejects the text at its quick check (it lacks
`Module not found: Can't resolve`) and leaves the service untouched;
`detectModuleNotFoundErrors` finds nothing either (its registry rule needs
the full `npm ERR! code E404 ... 404 Not Found ...` preamble), and the
rule's scoped-name extraction `split('@')[0]` would yield the empty
string, not `@my-scope/my-lib`. -/
theorem claim_C4 :
    (AlertService.createModuleErrorAlerts AlertService.initial c4Input 0
      (fun _ => [])) = (AlertService.initial, none) ∧
    (AlertService.createModuleErrorAlerts AlertService.initial c4Input 500
      (fun _ => [])) = (AlertService.initial, none) ∧
    (AlertService.createModuleErrorAlerts AlertService.initial c4Input 900
      (fun _ => [])) = (AlertService.initial, none) ∧
    detectModuleNotFoundErrors c4Input 0 = [] ∧
    registryModuleNameOf (toStr "@my-scope/my-lib@2.0.0") = [] :=
  ⟨by decide, by decide, by decide, by decide, by decide⟩

/-- The preview-error input of spec scenario 5 / claim C5, and its
`plugin:vite:`-tagged variant. -/
def c5Input : Str :=
  toStr "[[plugin:x:react-babel] /home/p/App.tsx: Unterminated template. (154:3)]"

def c5ViteInput : Str :=
  toStr "[[plugin:vite:react-babel] /home/p/App.tsx: Unterminated template. (154:3)]"

/-- C5 counterexample: on the claim's input the classifier returns null —
both of its regexes require a `plugin:vite:` tag, which
`plugin:x:react-babel` is not. -/
theorem claim_C5_counterexample : getPreviewErrorInfo c5Input = none := by decide

/-- C5 (amended): only `plugin:vite:`-tagged messages are classified; the
original input yields null, while the otherwise-identical
`plugin:vite:react-babel` input yields exactly one record with filePath
`/home/p/App.tsx`, line 154, column 3 and the unterminated-template
message. -/
theorem claim_C5 :
    getPreviewErrorInfo c5Input = none ∧
    (getPreviewErrorInfo c5ViteInput).map
      (fun r => (r.filePath, r.line, r.column, r.errorMessage)) =
      some (toStr "/home/p/App.tsx", 154, 3, toStr "Unterminated template") ∧
    (getPreviewErrorInfo c5ViteInput).map (fun r => r.errorType) =
      some (toStr "syntax") :=
  ⟨by decide, by decide, by decide⟩
